import Mathlib

/-!
Verification of the encrypted credential store and session-key lifecycle
manager of the `@arbitrum/agentic-wallets` SDK.

Shallow embedding conventions:
* Byte strings (`Buffer`) are `List Nat` with every entry `< 256`.
* JavaScript strings that are only compared/concatenated are Lean `String`;
  hex private keys and passwords (whose `.length`/`.slice` matter) are
  `List Char`.
* `node:crypto`'s `scryptSync` and AES-256-GCM are external library
  primitives, not repository code: they enter the model as explicit
  function parameters (`Scrypt`, `AesGcm`), with the authenticated
  round-trip property taken as a hypothesis where a theorem needs it.
* base64 / JSON transport encodings are bijective on the well-formed data
  in play and are modelled as the identity: envelope fields hold the raw
  byte lists.  The one JSON failure that matters is modelled explicitly:
  `JSON.stringify` throws on JavaScript `bigint` values, so a record whose
  permission schema carries a bigint cap cannot be saved
  (`jsonSerializable` inside `fsSave`).
* `randomBytes`, `randomUUID`, `generatePrivateKey` and `Date.now()` are
  effects; they become explicit arguments (`salt`, `iv`, `sessionId`,
  `sessionPrivateKey`, `now`).
* The file system behind `FileStorage` is an explicit `FS` state threaded
  through operations; a set of `failing` paths models I/O errors
  (permission denied / disk full) at write or unlink time, and a
  `corrupt` file content models unreadable / unparseable JSON.
-/

set_option linter.unusedVariables false

deriving instance DecidableEq for Except

namespace ArbWallet

/-! ## Errors (src/packages/sdk/src/types/errors.ts)

Every SDK error is an `AgenticWalletError` carrying a human message and a
machine-readable `code` string.  `KeyManagementError` and
`SessionKeyError` fix the codes `KEY_MANAGEMENT_ERROR` and
`SESSION_KEY_ERROR`; `validateSessionTimes` throws the base class with
code `INVALID_SESSION_TIMES`. -/

structure WalletErr where
  message : String
  code : String
deriving DecidableEq, Repr

def KeyManagementError (msg : String) : WalletErr :=
  ⟨msg, "KEY_MANAGEMENT_ERROR"⟩

def SessionKeyError (msg : String) : WalletErr :=
  ⟨msg, "SESSION_KEY_ERROR"⟩

/-- `Except.isOk` as a plain Bool, for stating "the call succeeds". -/
def exceptOk {α : Type} : Except WalletErr α → Bool
  | .ok _ => true
  | .error _ => false

/-! ## Hex encoding (Buffer.from(·,'hex') / Buffer.toString('hex')) -/

/-- Lower-case hex digit of a nibble, as produced by `toString('hex')`. -/
def hexDigit (n : Nat) : Char :=
  if n < 10 then Char.ofNat (48 + n) else Char.ofNat (87 + n)

/-- `buffer.toString('hex')`: two lower-case digits per byte. -/
def bytesToHex : List Nat → List Char
  | [] => []
  | b :: bs => hexDigit (b / 16) :: hexDigit (b % 16) :: bytesToHex bs

/-- Value of one hex digit (upper or lower case), `none` on a non-digit. -/
def hexCharVal (c : Char) : Option Nat :=
  if '0' ≤ c ∧ c ≤ '9' then some (c.toNat - 48)
  else if 'a' ≤ c ∧ c ≤ 'f' then some (c.toNat - 87)
  else if 'A' ≤ c ∧ c ≤ 'F' then some (c.toNat - 55)
  else none

/-- `Buffer.from(s, 'hex')`: decodes byte pairs left to right and stops at
the first incomplete or invalid pair (Node's truncating semantics). -/
def hexDecode : List Char → List Nat
  | c1 :: c2 :: rest =>
    match hexCharVal c1, hexCharVal c2 with
    | some hi, some lo => (16 * hi + lo) :: hexDecode rest
    | _, _ => []
  | _ => []

/-! ## Cipher (src/packages/sdk/src/utils/crypto.ts, src/unnamed/part_004) -/

/-- KDF parameter record stored in the envelope (`kdfParams`). -/
structure KdfParams where
  n : Nat
  r : Nat
  p : Nat
  dkLen : Nat
deriving DecidableEq, Repr

/-- The envelope (`EncryptedKeyData`): binary fields are byte lists (base64
transport elided), plus the KDF identifier and parameters. -/
structure EncryptedKeyData where
  ciphertext : List Nat
  iv : List Nat
  salt : List Nat
  authTag : List Nat
  kdf : String
  kdfParams : KdfParams
deriving DecidableEq, Repr

/-- `scryptSync(password, salt, dkLen, {N, r, p})` as an abstract function
parameter: password, salt and parameters to derived key bytes. -/
def Scrypt : Type := List Char → List Nat → KdfParams → List Nat

/-- AES-256-GCM as an abstract parameter: `enc key iv plaintext` yields
`(ciphertext, authTag)`; `dec key iv ciphertext authTag` yields the
plaintext or `none` when tag verification fails. -/
structure AesGcm where
  enc : List Nat → List Nat → List Nat → List Nat × List Nat
  dec : List Nat → List Nat → List Nat → List Nat → Option (List Nat)

/-- Authenticated-encryption round trip: decrypting an honest encryption
under the same key and IV returns the plaintext. -/
def GcmRoundTrip (g : AesGcm) : Prop :=
  ∀ key iv msg, g.dec key iv (g.enc key iv msg).1 (g.enc key iv msg).2 = some msg

def SCRYPT_N : Nat := 2 ^ 18
def SCRYPT_R : Nat := 8
def SCRYPT_P : Nat := 1
def KEY_LENGTH : Nat := 32
def IV_LENGTH : Nat := 16
def SALT_LENGTH : Nat := 32

/-- `deriveKey` from crypto.ts: scrypt at the module's fixed parameters. -/
def deriveKey (scrypt : Scrypt) (password : List Char) (salt : List Nat) : List Nat :=
  scrypt password salt ⟨SCRYPT_N, SCRYPT_R, SCRYPT_P, KEY_LENGTH⟩

/-- `encryptKey(privateKey, password)` from crypto.ts.  The `!password`
half of the guard is subsumed by `length < 8` (an empty string has length
0).  `salt` and `iv` stand for the two `randomBytes` draws. -/
def encryptKey (g : AesGcm) (scrypt : Scrypt) (salt iv : List Nat)
    (privateKey : List Char) (password : List Char) : Except WalletErr EncryptedKeyData :=
  if password.length < 8 then
    .error (KeyManagementError "Password must be at least 8 characters")
  else
    let key := deriveKey scrypt password salt
    let keyBytes := hexDecode (privateKey.drop 2)
    let ct := g.enc key iv keyBytes
    .ok { ciphertext := ct.1, iv := iv, salt := salt, authTag := ct.2,
          kdf := "scrypt",
          kdfParams := ⟨SCRYPT_N, SCRYPT_R, SCRYPT_P, KEY_LENGTH⟩ }

/-- `decryptKey(encryptedData, password)` from crypto.ts: recomputes the
key from the salt and KDF parameters stored in the envelope, decrypts and
verifies the tag; the catch block collapses every failure into the one
generic `KeyManagementError` (nothing inside the `try` throws a
`KeyManagementError` itself, so the rethrow branch is dead). -/
def decryptKey (g : AesGcm) (scrypt : Scrypt) (encryptedData : EncryptedKeyData)
    (password : List Char) : Except WalletErr (List Char) :=
  let key := scrypt password encryptedData.salt encryptedData.kdfParams
  match g.dec key encryptedData.iv encryptedData.ciphertext encryptedData.authTag with
  | some decrypted => .ok ('0' :: 'x' :: bytesToHex decrypted)
  | none => .error (KeyManagementError "Failed to decrypt private key. Wrong password?")

/-! ### Hex round-trip lemmas -/

theorem hexCharVal_hexDigit : ∀ n < 16, hexCharVal (hexDigit n) = some n := by
  decide

theorem hexDecode_bytesToHex : ∀ bs : List Nat, (∀ b ∈ bs, b < 256) →
    hexDecode (bytesToHex bs) = bs := by
  intro bs
  induction bs with
  | nil => intro _; rfl
  | cons b bs ih =>
    intro h
    have hb : b < 256 := h b (List.mem_cons_self b bs)
    have h1 : hexCharVal (hexDigit (b / 16)) = some (b / 16) :=
      hexCharVal_hexDigit _ (Nat.div_lt_of_lt_mul (by omega))
    have h2 : hexCharVal (hexDigit (b % 16)) = some (b % 16) :=
      hexCharVal_hexDigit _ (Nat.mod_lt _ (by omega))
    have ih2 := ih (fun x hx => h x (List.mem_cons_of_mem b hx))
    simp [bytesToHex, hexDecode, h1, h2, ih2, Nat.div_add_mod]

/-- Core Cipher round trip: any envelope honestly produced by `encryptKey`
decrypts (under the same password) to the hex re-encoding of the bytes the
encryptor extracted, because `decryptKey` rebuilds the very same key from
the envelope's stored salt and KDF parameters. -/
theorem decryptKey_encryptKey (g : AesGcm) (scrypt : Scrypt) (salt iv : List Nat)
    (privateKey password : List Char) (ed : EncryptedKeyData)
    (hg : GcmRoundTrip g)
    (henc : encryptKey g scrypt salt iv privateKey password = .ok ed) :
    decryptKey g scrypt ed password =
      .ok ('0' :: 'x' :: bytesToHex (hexDecode (privateKey.drop 2))) := by
  unfold encryptKey at henc
  by_cases hlt : password.length < 8
  · simp [hlt] at henc
  · simp [hlt] at henc
    subst henc
    unfold GcmRoundTrip at hg
    unfold decryptKey deriveKey
    simp [hg]

/-! ## Session types (src/packages/sdk/src/types/session.ts, src/unnamed/part_007)

`maxValuePerTransaction` / `maxTotalValue` are `bigint`,
`maxTransactions` a `number`.  The distinction is behavioural, not just
numeric: `JSON.stringify` serializes `number` but throws a `TypeError` on
`bigint`, so the two value caps are wrapped in `BigIntVal` to keep that
fact in the model.  `allowedFunctions` is a `Record` of target address to
selector list, modelled as an association list. -/

/-- A JavaScript `bigint`: same mathematical content as a safe integer,
but rejected by `JSON.stringify` (the repo defines no `toJSON`/replacer
anywhere). -/
structure BigIntVal where
  val : Int
deriving DecidableEq, Repr

structure SessionKeyPermissions where
  allowedTargets : Option (List String)
  allowedFunctions : Option (List (String × List String))
  maxValuePerTransaction : Option BigIntVal
  maxTotalValue : Option BigIntVal
  maxTransactions : Option Int
deriving DecidableEq, Repr

/-- Whether `JSON.stringify` can serialize this permission schema: it
throws exactly when a bigint value is present.  (`maxTransactions` is a
`number` and always serializes; targets and selectors are strings.) -/
def permsSerializable (p : SessionKeyPermissions) : Bool :=
  p.maxValuePerTransaction.isNone && p.maxTotalValue.isNone

structure SessionKeyConfig where
  label : String
  validAfter : Int
  validUntil : Int
  permissions : SessionKeyPermissions
deriving DecidableEq, Repr

structure SessionKeyInfo where
  id : String
  sessionKeyAddress : String
  label : String
  validAfter : Int
  validUntil : Int
  permissions : SessionKeyPermissions
  isActive : Bool
  isRevoked : Bool
  createdAt : Int
deriving DecidableEq, Repr

/-- `SessionKeyData`.  The source stores `JSON.stringify(encryptedKeyData)`
and re-parses it in `getSessionPrivateKey`; the stringify/parse round trip
is modelled as the identity, so the field holds the envelope itself. -/
structure SessionKeyData where
  info : SessionKeyInfo
  encryptedPrivateKey : EncryptedKeyData
deriving DecidableEq, Repr

/-- Whether `JSON.stringify(data, null, 2)` succeeds on a session record:
every field is a string, number or bool except the permission caps, so it
throws exactly when the schema carries a bigint cap.  (The envelope was
already stringified separately in `createSessionKey`; its fields are all
strings and numbers.) -/
def jsonSerializable (data : SessionKeyData) : Bool :=
  permsSerializable data.info.permissions

/-! ## FileStorage (src/packages/sdk/src/utils/storage.ts)

A file is addressed by `(collection, id)` — `join(dir, collection,
id + ".json")` is injective in those two components for fixed base
directory.  `corrupt` marks a file whose `readFileSync`/`JSON.parse`
fails; `failing` lists paths where `writeFileSync`/`unlinkSync` throws
(permission denied, disk full).  The store only ever holds session
records here, the one record type the claims need. -/

inductive FileContent where
  | good (data : SessionKeyData)
  | corrupt
deriving DecidableEq, Repr

structure FS where
  files : List ((String × String) × FileContent)
  failing : List (String × String)
deriving DecidableEq, Repr

/-- First binding of a path in the file list. -/
def lookupFile : List ((String × String) × FileContent) → String × String → Option FileContent
  | [], _ => none
  | (k, v) :: rest, key => if k = key then some v else lookupFile rest key

/-- Replace-or-append a binding (what overwriting a file does). -/
def setFile : List ((String × String) × FileContent) → String × String → FileContent →
    List ((String × String) × FileContent)
  | [], key, v => [(key, v)]
  | (k, v') :: rest, key, v =>
    if k = key then (key, v) :: rest else (k, v') :: setFile rest key v

/-- Remove a binding (what `unlinkSync` does). -/
def removeFile (files : List ((String × String) × FileContent)) (key : String × String) :
    List ((String × String) × FileContent) :=
  files.filter (fun e => !(e.1 = key : Bool))

/-- `FileStorage.save`: write the record, overwriting.  Both throws of
the `try` block land in the same wrapper: `JSON.stringify` throwing on a
bigint-carrying record, and `writeFileSync` throwing an I/O error
(modelled by the `failing` set).  Either is wrapped in
`KeyManagementError` (the dynamic `String(error)` tail of the message is
elided). -/
def fsSave (fs : FS) (collection id : String) (data : SessionKeyData) : Except WalletErr FS :=
  if (collection, id) ∈ fs.failing ∨ jsonSerializable data = false then
    .error (KeyManagementError ("Failed to save " ++ collection ++ "/" ++ id))
  else
    .ok { fs with files := setFile fs.files (collection, id) (.good data) }

/-- `FileStorage.load`: `null` for a missing file; a read/parse failure is
wrapped in `KeyManagementError`. -/
def fsLoad (fs : FS) (collection id : String) : Except WalletErr (Option SessionKeyData) :=
  match lookupFile fs.files (collection, id) with
  | none => .ok none
  | some (.good data) => .ok (some data)
  | some .corrupt => .error (KeyManagementError ("Failed to load " ++ collection ++ "/" ++ id))

/-- `FileStorage.list`: ids of the `.json` files of a collection, in
enumeration order. -/
def fsList (fs : FS) (collection : String) : List String :=
  (fs.files.filter (fun e => (e.1.1 = collection : Bool))).map (fun e => e.1.2)

/-- `FileStorage.delete`: `false` for a missing file; a thrown `unlinkSync`
error is caught and turned into `false` as well. -/
def fsDelete (fs : FS) (collection id : String) : Bool × FS :=
  match lookupFile fs.files (collection, id) with
  | none => (false, fs)
  | some _ =>
    if (collection, id) ∈ fs.failing then
      (false, fs)
    else
      (true, { fs with files := removeFile fs.files (collection, id) })

/-! ## Validation (src/packages/sdk/src/utils/validation.ts) -/

/-- `validateSessionTimes(validAfter, validUntil)`; `now` is the
`Date.now()/1000` reading made inside the function. -/
def validateSessionTimes (validAfter validUntil now : Int) : Except WalletErr Unit :=
  if validUntil ≤ validAfter then
    .error ⟨"Session validUntil must be after validAfter.", "INVALID_SESSION_TIMES"⟩
  else if validUntil ≤ now then
    .error ⟨"Session validUntil must be in the future.", "INVALID_SESSION_TIMES"⟩
  else .ok ()

/-! ## SessionManager (src/packages/sdk/src/core/session-manager.ts) -/

def SESSION_COLLECTION : String := "sessions"

/-- `walletAddress.toLowerCase()` on the ASCII addresses in play:
character-wise lower-casing. -/
def lowerAscii (s : String) : String := ⟨s.data.map Char.toLower⟩

/-- `label.trim()`: strip leading and trailing whitespace.  JS `trim`
strips Unicode whitespace; on the ASCII labels in play it agrees with
`Char.isWhitespace`. -/
def trimStr (s : String) : String :=
  ⟨((s.data.dropWhile Char.isWhitespace).reverse.dropWhile Char.isWhitespace).reverse⟩

def sessionCollection (walletAddress : String) : String :=
  SESSION_COLLECTION ++ "/" ++ lowerAscii walletAddress

/-- `SessionManager.createSessionKey`.  `sessionPrivateKey` stands for the
`generatePrivateKey()` draw, `sessionKeyAddress` for the derived account
address, `sessionId` for `randomUUID()`, `salt`/`iv` for the entropy
consumed by `encryptKey`, and `now` for the `Date.now()/1000` readings of
this call (the source reads the clock once in `validateSessionTimes` and
once in the body; both happen within the same call). -/
def createSessionKey (g : AesGcm) (scrypt : Scrypt) (fs : FS)
    (walletAddress : String) (config : SessionKeyConfig) (password : List Char)
    (sessionPrivateKey : List Char) (sessionKeyAddress : String) (sessionId : String)
    (salt iv : List Nat) (now : Int) : Except WalletErr (SessionKeyData × FS) :=
  match validateSessionTimes config.validAfter config.validUntil now with
  | .error e => .error e
  | .ok _ =>
    if config.label = "" ∨ (trimStr config.label).length = 0 then
      .error (SessionKeyError "Session key label is required")
    else
      match encryptKey g scrypt salt iv sessionPrivateKey password with
      | .error e => .error e
      | .ok encryptedPrivateKey =>
        let info : SessionKeyInfo := {
          id := sessionId,
          sessionKeyAddress := sessionKeyAddress,
          label := config.label,
          validAfter := config.validAfter,
          validUntil := config.validUntil,
          permissions := config.permissions,
          isActive := decide (config.validAfter ≤ now) && decide (config.validUntil > now),
          isRevoked := false,
          createdAt := now }
        let sessionData : SessionKeyData := ⟨info, encryptedPrivateKey⟩
        match fsSave fs (sessionCollection walletAddress) sessionId sessionData with
        | .error e => .error e
        | .ok fs2 => .ok (sessionData, fs2)

/-- The per-id body of `listSessions`: load each id, drop the `null`s, and
overwrite `isActive` with the freshly recomputed activity. -/
def loadInfos (fs : FS) (collection : String) (now : Int) :
    List String → Except WalletErr (List SessionKeyInfo)
  | [] => .ok []
  | id :: ids =>
    match fsLoad fs collection id with
    | .error e => .error e
    | .ok none => loadInfos fs collection now ids
    | .ok (some data) =>
      match loadInfos fs collection now ids with
      | .error e => .error e
      | .ok rest =>
        .ok ({ data.info with
                 isActive := !data.info.isRevoked &&
                   decide (data.info.validAfter ≤ now) &&
                   decide (data.info.validUntil > now) } :: rest)

/-- `SessionManager.listSessions`. -/
def listSessions (fs : FS) (walletAddress : String) (now : Int) :
    Except WalletErr (List SessionKeyInfo) :=
  let collection := sessionCollection walletAddress
  loadInfos fs collection now (fsList fs collection)

/-- `SessionManager.getSession`: returns `storage.load` verbatim. -/
def getSession (fs : FS) (walletAddress sessionId : String) :
    Except WalletErr (Option SessionKeyData) :=
  fsLoad fs (sessionCollection walletAddress) sessionId

/-- `SessionManager.getSessionPrivateKey`. -/
def getSessionPrivateKey (g : AesGcm) (scrypt : Scrypt) (fs : FS)
    (walletAddress sessionId : String) (password : List Char) (now : Int) :
    Except WalletErr (List Char) :=
  match getSession fs walletAddress sessionId with
  | .error e => .error e
  | .ok none => .error (SessionKeyError ("Session key not found: " ++ sessionId))
  | .ok (some session) =>
    if session.info.isRevoked then
      .error (SessionKeyError "Session key has been revoked")
    else if session.info.validUntil ≤ now then
      .error (SessionKeyError "Session key has expired")
    else
      decryptKey g scrypt session.encryptedPrivateKey password

/-- `SessionManager.revokeSession` (the `collection` local of the source
is inlined). -/
def revokeSession (fs : FS) (walletAddress sessionId : String) :
    Except WalletErr (Bool × FS) :=
  match fsLoad fs (sessionCollection walletAddress) sessionId with
  | .error e => .error e
  | .ok none => .error (SessionKeyError ("Session key not found: " ++ sessionId))
  | .ok (some session) =>
    let session2 : SessionKeyData :=
      { session with info := { session.info with isRevoked := true, isActive := false } }
    match fsSave fs (sessionCollection walletAddress) sessionId session2 with
    | .error e => .error e
    | .ok fs2 => .ok (true, fs2)

/-- Modelled from the spec: the derived activity of a session at time
`now`, `validAfter <= now < validUntil && !revoked` (§3 of the spec).
Used to compare what reads report against the spec's formula. -/
def derivedActive (info : SessionKeyInfo) (now : Int) : Bool :=
  decide (info.validAfter ≤ now) && decide (now < info.validUntil) && !info.isRevoked

/-! ## Concrete fixtures

A concrete `AesGcm` instance satisfying the authenticated round trip, a
concrete `Scrypt`, and small concrete inputs.  These only feed witnesses
and counterexamples; no theorem about the program depends on their
internals. -/

def gXor : AesGcm :=
  { enc := fun key iv msg => (msg, key ++ iv),
    dec := fun key iv ct tag => if tag = key ++ iv then some ct else none }

theorem gXor_roundTrip : GcmRoundTrip gXor := by
  intro key iv msg
  simp [gXor, GcmRoundTrip]

def scrypt0 : Scrypt := fun password salt ps => salt ++ [ps.dkLen, password.length]

def salt0 : List Nat := List.replicate 32 1
def iv0 : List Nat := List.replicate 16 2
def secret0 : List Nat := List.replicate 32 7
def pw0 : List Char := ['p', 'a', 's', 's', 'w', 'o', 'r', 'd', '1']
def pwBad : List Char := ['w', 'r', 'o', 'n', 'g', 'p', 'a', 's', 's', '1']

/-- The envelope `encryptKey gXor scrypt0 salt0 iv0 (hex of secret0) pw0`
produces. -/
def ed0 : EncryptedKeyData :=
  { ciphertext := secret0, iv := iv0, salt := salt0,
    authTag := (salt0 ++ [32, 9]) ++ iv0, kdf := "scrypt",
    kdfParams := ⟨SCRYPT_N, SCRYPT_R, SCRYPT_P, KEY_LENGTH⟩ }

/-- An envelope whose tag can never verify under `gXor` (tampered). -/
def edBad : EncryptedKeyData :=
  { ciphertext := [1], iv := iv0, salt := salt0, authTag := [9],
    kdf := "scrypt", kdfParams := ⟨SCRYPT_N, SCRYPT_R, SCRYPT_P, KEY_LENGTH⟩ }

/-! ## C1 -/

/-- C1: for every 32-byte secret `s` and password of length ≥ 8,
decrypting the envelope produced by `encryptKey` with the same password
returns the secret — `decryptKey` recomputes the key from the salt and
KDF parameters stored in the envelope, which are exactly those
`encryptKey` recorded. -/
theorem C1_seal_open_roundTrip (g : AesGcm) (scrypt : Scrypt) (salt iv s : List Nat)
    (password : List Char) (ed : EncryptedKeyData)
    (hg : GcmRoundTrip g)
    (hlen : s.length = 32) (hbytes : ∀ b ∈ s, b < 256)
    (hpw : 8 ≤ password.length)
    (henc : encryptKey g scrypt salt iv ('0' :: 'x' :: bytesToHex s) password = .ok ed) :
    decryptKey g scrypt ed password = .ok ('0' :: 'x' :: bytesToHex s) := by
  have h := decryptKey_encryptKey g scrypt salt iv _ password ed hg henc
  rw [h]
  simp [hexDecode_bytesToHex s hbytes]

theorem C1_seal_open_roundTrip_witness :
    decryptKey gXor scrypt0 ed0 pw0 = .ok ('0' :: 'x' :: bytesToHex secret0) :=
  C1_seal_open_roundTrip gXor scrypt0 salt0 iv0 secret0 pw0 ed0 gXor_roundTrip
    (by decide) (by decide) (by decide) (by decide)

/-! ## C7 -/

/-- Every error `decryptKey` can produce is the one fixed generic
`KeyManagementError`. -/
theorem decryptKey_error_eq (g : AesGcm) (scrypt : Scrypt)
    (ed : EncryptedKeyData) (password : List Char) (e : WalletErr)
    (h : decryptKey g scrypt ed password = .error e) :
    e = KeyManagementError "Failed to decrypt private key. Wrong password?" := by
  cases hd : g.dec (scrypt password ed.salt ed.kdfParams) ed.iv ed.ciphertext ed.authTag with
  | some m => simp [decryptKey, hd] at h
  | none =>
    simp [decryptKey, hd] at h
    exact h.symm

/-- C7: whatever makes `decryptKey` fail — wrong password or tampered
envelope — the resulting error is the one fixed generic
`KeyManagementError`, whose message never distinguishes the cause. -/
theorem C7_decrypt_single_generic_error (g : AesGcm) (scrypt : Scrypt)
    (ed : EncryptedKeyData) (password : List Char) (e : WalletErr)
    (h : decryptKey g scrypt ed password = .error e) :
    e = KeyManagementError "Failed to decrypt private key. Wrong password?" :=
  decryptKey_error_eq g scrypt ed password e h

/-- Applies C7 both to a wrong-password failure on an honest envelope and
to a tampered-envelope failure under the right password. -/
theorem C7_decrypt_single_generic_error_witness :
    decryptKey gXor scrypt0 ed0 pwBad =
      .error (KeyManagementError "Failed to decrypt private key. Wrong password?") ∧
    decryptKey gXor scrypt0 edBad pw0 =
      .error (KeyManagementError "Failed to decrypt private key. Wrong password?") := by
  refine ⟨?_, ?_⟩
  · have h : decryptKey gXor scrypt0 ed0 pwBad =
        .error (KeyManagementError "Failed to decrypt private key. Wrong password?") := by decide
    have := C7_decrypt_single_generic_error gXor scrypt0 ed0 pwBad _ h
    exact h
  · have h : decryptKey gXor scrypt0 edBad pw0 =
        .error (KeyManagementError "Failed to decrypt private key. Wrong password?") := by decide
    have := C7_decrypt_single_generic_error gXor scrypt0 edBad pw0 _ h
    exact h

/-! ## C3 -/

/-- A 2-byte secret, far from the 32-byte private-key length. -/
def shortSecretHex : List Char := ['0', 'x', '0', '1', '0', '2']

/-- C3 counterexample: `encryptKey` accepts a 2-byte secret with a valid
password — no length check on the secret, no ValidationError. -/
theorem C3_cex_short_secret_accepted :
    exceptOk (encryptKey gXor scrypt0 salt0 iv0 shortSecretHex pw0) = true ∧
    (hexDecode (shortSecretHex.drop 2)).length = 2 := by
  decide

/-- C3 (amended): `encryptKey` validates only the password (length ≥ 8),
failing before any key derivation or encryption — the error is the same
whatever crypto primitives, entropy or secret are supplied — and performs
no check at all on the secret's length; any secret is accepted once the
password passes.  (The 32-byte format check, `validatePrivateKey`, lives
in `KeyManager.encryptPrivateKey`, not in `encryptKey`.) -/
theorem C3_password_validation_only (g : AesGcm) (scrypt : Scrypt) (salt iv : List Nat)
    (privateKey password : List Char) :
    (password.length < 8 →
      ∀ (g' : AesGcm) (scrypt' : Scrypt) (salt' iv' : List Nat) (privateKey' : List Char),
        encryptKey g' scrypt' salt' iv' privateKey' password =
          .error (KeyManagementError "Password must be at least 8 characters")) ∧
    (8 ≤ password.length →
      exceptOk (encryptKey g scrypt salt iv privateKey password) = true) := by
  constructor
  · intro h g' scrypt' salt' iv' privateKey'
    simp [encryptKey, h]
  · intro h
    have h8 : ¬ password.length < 8 := by omega
    simp [encryptKey, h8, exceptOk]

theorem C3_password_validation_only_witness :
    encryptKey gXor scrypt0 salt0 iv0 shortSecretHex ['s', 'h', 'o', 'r', 't'] =
      .error (KeyManagementError "Password must be at least 8 characters") ∧
    exceptOk (encryptKey gXor scrypt0 salt0 iv0 shortSecretHex pw0) = true :=
  ⟨(C3_password_validation_only gXor scrypt0 salt0 iv0 shortSecretHex
      ['s', 'h', 'o', 'r', 't']).1 (by decide) gXor scrypt0 salt0 iv0 shortSecretHex,
   (C3_password_validation_only gXor scrypt0 salt0 iv0 shortSecretHex pw0).2 (by decide)⟩

/-! ## Session fixtures -/

def noPerms : SessionKeyPermissions := ⟨none, none, none, none, none⟩

def hexSecret0 : List Char := '0' :: 'x' :: bytesToHex secret0

def fsEmpty : FS := ⟨[], []⟩

def infoLive : SessionKeyInfo :=
  ⟨"s1", "0xsess", "bot", 0, 1000, noPerms, true, false, 0⟩

def dataLive : SessionKeyData := ⟨infoLive, ed0⟩

def fsLive : FS := ⟨[(("sessions/0xabc", "s1"), .good dataLive)], []⟩

def infoRevoked : SessionKeyInfo :=
  ⟨"s1", "0xsess", "bot", 0, 1000, noPerms, false, true, 0⟩

def dataRevoked : SessionKeyData := ⟨infoRevoked, ed0⟩

def fsRevoked : FS := ⟨[(("sessions/0xabc", "s1"), .good dataRevoked)], []⟩

/-- Expired at `now = 100` (window `[0, 50)`), with a stale persisted
`isActive = true`. -/
def infoExpired : SessionKeyInfo :=
  ⟨"s1", "0xsess", "bot", 0, 50, noPerms, true, false, 0⟩

def dataExpired : SessionKeyData := ⟨infoExpired, ed0⟩

def fsExpired : FS := ⟨[(("sessions/0xabc", "s1"), .good dataExpired)], []⟩

/-- Pending at `now = 100` (window `[500, 1000)`), not revoked. -/
def infoPending : SessionKeyInfo :=
  ⟨"s1", "0xsess", "bot", 500, 1000, noPerms, false, false, 0⟩

def dataPending : SessionKeyData := ⟨infoPending, ed0⟩

def fsPending : FS := ⟨[(("sessions/0xabc", "s1"), .good dataPending)], []⟩

/-! ## C2 -/

/-- Every error `fsLoad` can produce is a `KeyManagementError`. -/
theorem fsLoad_error_eq (fs : FS) (collection id : String) (e : WalletErr)
    (h : fsLoad fs collection id = .error e) :
    e = KeyManagementError ("Failed to load " ++ collection ++ "/" ++ id) := by
  cases hl : lookupFile fs.files (collection, id) with
  | none => simp [fsLoad, hl] at h
  | some content =>
    cases content with
    | good d => simp [fsLoad, hl] at h
    | corrupt =>
      simp [fsLoad, hl] at h
      exact h.symm

/-- C2 counterexample: the three state-error conditions do *not* carry
per-condition distinct error codes — absent, revoked and expired sessions
all fail with the same code `SESSION_KEY_ERROR`; only the messages
differ. -/
theorem C2_cex_state_error_codes_not_distinct :
    getSessionPrivateKey gXor scrypt0 fsEmpty "0xabc" "s1" pw0 100 =
      .error ⟨"Session key not found: s1", "SESSION_KEY_ERROR"⟩ ∧
    getSessionPrivateKey gXor scrypt0 fsRevoked "0xabc" "s1" pw0 100 =
      .error ⟨"Session key has been revoked", "SESSION_KEY_ERROR"⟩ ∧
    getSessionPrivateKey gXor scrypt0 fsExpired "0xabc" "s1" pw0 100 =
      .error ⟨"Session key has expired", "SESSION_KEY_ERROR"⟩ := by
  decide

/-- C2 (amended): `getSessionPrivateKey` fails with `SessionKeyError`
"Session key not found: …" when the session is absent, "Session key has
been revoked" when it is revoked (checked first), "Session key has
expired" when `validUntil <= now` and it is not revoked, and otherwise
hands the stored envelope to `decryptKey`; the three state errors carry
distinct *messages* but all share the single code `SESSION_KEY_ERROR`
(any other failure of the call carries `KEY_MANAGEMENT_ERROR`), so
callers cannot branch on the code alone. -/
theorem C2_getSessionPrivateKey_state_errors (g : AesGcm) (scrypt : Scrypt) (fs : FS)
    (walletAddress sessionId : String) (password : List Char) (now : Int) :
    (getSession fs walletAddress sessionId = .ok none →
      getSessionPrivateKey g scrypt fs walletAddress sessionId password now =
        .error (SessionKeyError ("Session key not found: " ++ sessionId))) ∧
    (∀ s, getSession fs walletAddress sessionId = .ok (some s) →
      s.info.isRevoked = true →
      getSessionPrivateKey g scrypt fs walletAddress sessionId password now =
        .error (SessionKeyError "Session key has been revoked")) ∧
    (∀ s, getSession fs walletAddress sessionId = .ok (some s) →
      s.info.isRevoked = false → s.info.validUntil ≤ now →
      getSessionPrivateKey g scrypt fs walletAddress sessionId password now =
        .error (SessionKeyError "Session key has expired")) ∧
    (∀ s, getSession fs walletAddress sessionId = .ok (some s) →
      s.info.isRevoked = false → now < s.info.validUntil →
      getSessionPrivateKey g scrypt fs walletAddress sessionId password now =
        decryptKey g scrypt s.encryptedPrivateKey password) ∧
    (∀ e, getSessionPrivateKey g scrypt fs walletAddress sessionId password now = .error e →
      e.code = "SESSION_KEY_ERROR" ∨ e.code = "KEY_MANAGEMENT_ERROR") := by
  refine ⟨?_, ?_, ?_, ?_, ?_⟩
  · intro h
    simp [getSessionPrivateKey, h]
  · intro s h hrev
    simp [getSessionPrivateKey, h, hrev]
  · intro s h hrev hexp
    simp [getSessionPrivateKey, h, hrev, hexp]
  · intro s h hrev hexp
    have : ¬ s.info.validUntil ≤ now := by omega
    simp [getSessionPrivateKey, h, hrev, this]
  · intro e h
    unfold getSessionPrivateKey at h
    cases hget : getSession fs walletAddress sessionId with
    | error e2 =>
      rw [hget] at h
      injection h with h
      subst h
      right
      rw [fsLoad_error_eq fs (sessionCollection walletAddress) sessionId e2 hget]
      rfl
    | ok s? =>
      rw [hget] at h
      cases s? with
      | none =>
        injection h with h
        subst h
        left
        rfl
      | some s =>
        by_cases hrev : s.info.isRevoked <;> simp [hrev] at h
        · left
          rw [← h]
          rfl
        · by_cases hexp : s.info.validUntil ≤ now <;> simp [hexp] at h
          · left
            rw [← h]
            rfl
          · right
            rw [decryptKey_error_eq g scrypt s.encryptedPrivateKey password e h]
            rfl

theorem C2_getSessionPrivateKey_state_errors_witness :
    getSessionPrivateKey gXor scrypt0 fsEmpty "0xabc" "s1" pw0 100 =
      .error (SessionKeyError ("Session key not found: " ++ "s1")) ∧
    getSessionPrivateKey gXor scrypt0 fsRevoked "0xabc" "s1" pw0 100 =
      .error (SessionKeyError "Session key has been revoked") ∧
    getSessionPrivateKey gXor scrypt0 fsExpired "0xabc" "s1" pw0 100 =
      .error (SessionKeyError "Session key has expired") ∧
    getSessionPrivateKey gXor scrypt0 fsLive "0xabc" "s1" pw0 100 =
      decryptKey gXor scrypt0 dataLive.encryptedPrivateKey pw0 ∧
    ((SessionKeyError ("Session key not found: " ++ "s1")).code = "SESSION_KEY_ERROR" ∨
      (SessionKeyError ("Session key not found: " ++ "s1")).code = "KEY_MANAGEMENT_ERROR") :=
  ⟨(C2_getSessionPrivateKey_state_errors gXor scrypt0 fsEmpty "0xabc" "s1" pw0 100).1
      (by decide),
   (C2_getSessionPrivateKey_state_errors gXor scrypt0 fsRevoked "0xabc" "s1" pw0 100).2.1
      dataRevoked (by decide) (by decide),
   (C2_getSessionPrivateKey_state_errors gXor scrypt0 fsExpired "0xabc" "s1" pw0 100).2.2.1
      dataExpired (by decide) (by decide) (by decide),
   (C2_getSessionPrivateKey_state_errors gXor scrypt0 fsLive "0xabc" "s1" pw0 100).2.2.2.1
      dataLive (by decide) (by decide) (by decide),
   (C2_getSessionPrivateKey_state_errors gXor scrypt0 fsEmpty "0xabc" "s1" pw0 100).2.2.2.2
      (SessionKeyError ("Session key not found: " ++ "s1")) (by decide)⟩

/-! ## C10 -/

/-- C10: `getSessionPrivateKey` never looks at `validAfter`.  For a
Pending session — `now < validAfter`, not revoked — no state error is
raised: the call goes straight to decryption and, with the correct
password, returns the session private key even though the validity window
has not yet opened. -/
theorem C10_pending_session_decrypts (g : AesGcm) (scrypt : Scrypt) (fs : FS)
    (walletAddress sessionId : String) (password : List Char) (now : Int)
    (s : SessionKeyData) (salt iv : List Nat) (privateKey : List Char)
    (ed : EncryptedKeyData)
    (hg : GcmRoundTrip g)
    (hget : getSession fs walletAddress sessionId = .ok (some s))
    (hrev : s.info.isRevoked = false)
    (hpending : now < s.info.validAfter)
    (hwin : s.info.validAfter < s.info.validUntil)
    (henc : encryptKey g scrypt salt iv privateKey password = .ok ed)
    (hed : s.encryptedPrivateKey = ed) :
    getSessionPrivateKey g scrypt fs walletAddress sessionId password now =
      .ok ('0' :: 'x' :: bytesToHex (hexDecode (privateKey.drop 2))) := by
  have hexp : ¬ s.info.validUntil ≤ now := by omega
  simp [getSessionPrivateKey, hget, hrev, hexp, hed]
  exact decryptKey_encryptKey g scrypt salt iv privateKey password ed hg henc

theorem C10_pending_session_decrypts_witness :
    getSessionPrivateKey gXor scrypt0 fsPending "0xabc" "s1" pw0 100 =
      .ok ('0' :: 'x' :: bytesToHex (hexDecode (hexSecret0.drop 2))) :=
  C10_pending_session_decrypts gXor scrypt0 fsPending "0xabc" "s1" pw0 100
    dataPending salt0 iv0 hexSecret0 ed0 gXor_roundTrip
    (by decide) (by decide) (by decide) (by decide) (by decide) (by decide)

/-! ## C5 -/

/-- C5 counterexample: `getSession` does *not* recompute `isActive` — it
returns the persisted record verbatim.  Here the stored record claims
`isActive = true`, yet at call time `now = 100` the derived activity is
`false` (the window `[0, 50)` is over). -/
theorem C5_cex_getSession_returns_stale_flag :
    getSession fsExpired "0xabc" "s1" = .ok (some dataExpired) ∧
    dataExpired.info.isActive = true ∧
    derivedActive dataExpired.info 100 = false := by
  decide

/-- Every entry `loadInfos` produces reports the freshly derived
activity. -/
theorem loadInfos_isActive (fs : FS) (collection : String) (now : Int) :
    ∀ (ids : List String) (l : List SessionKeyInfo),
      loadInfos fs collection now ids = .ok l →
      ∀ info ∈ l, info.isActive = derivedActive info now := by
  intro ids
  induction ids with
  | nil =>
    intro l h info hmem
    simp [loadInfos] at h
    subst h
    simp at hmem
  | cons id ids ih =>
    intro l h info hmem
    unfold loadInfos at h
    cases hload : fsLoad fs collection id with
    | error e => rw [hload] at h; exact absurd h (by simp)
    | ok d? =>
      rw [hload] at h
      cases d? with
      | none => exact ih l h info hmem
      | some data =>
        cases hrec : loadInfos fs collection now ids with
        | error e => rw [hrec] at h; exact absurd h (by simp)
        | ok rest =>
          rw [hrec] at h
          injection h with h
          subst h
          rcases List.mem_cons.mp hmem with hhead | htail
          · subst hhead
            by_cases h1 : data.info.validAfter ≤ now <;>
              by_cases h2 : now < data.info.validUntil <;>
                cases h3 : data.info.isRevoked <;>
                  simp [derivedActive, h1, h2, h3, gt_iff_lt]
          · exact ih rest hrec info htail

/-- C5 (amended): `listSessions` derives each returned `isActive` at read
time from the wall clock — every entry satisfies the spec's formula
`validAfter <= now < validUntil && !revoked` regardless of the persisted
flag — but `getSession` performs no such recomputation: it returns the
stored record exactly as `storage.load` yields it, stale `isActive`
included. -/
theorem C5_activity_derived_at_read (fs : FS) (walletAddress sessionId : String) (now : Int) :
    (∀ l, listSessions fs walletAddress now = .ok l →
      ∀ info ∈ l, info.isActive = derivedActive info now) ∧
    getSession fs walletAddress sessionId =
      fsLoad fs (sessionCollection walletAddress) sessionId := by
  constructor
  · intro l h
    exact loadInfos_isActive fs (sessionCollection walletAddress) now _ l h
  · rfl

theorem C5_activity_derived_at_read_witness :
    ({ infoExpired with isActive := false } : SessionKeyInfo).isActive =
      derivedActive { infoExpired with isActive := false } 100 ∧
    getSession fsExpired "0xabc" "s1" = fsLoad fsExpired "sessions/0xabc" "s1" := by
  constructor
  · exact (C5_activity_derived_at_read fsExpired "0xabc" "s1" 100).1
      [{ infoExpired with isActive := false }] (by decide) _ (by decide)
  · exact (C5_activity_derived_at_read fsExpired "0xabc" "s1" 100).2

/-! ## C4 -/

theorem lookupFile_setFile_self (files : List ((String × String) × FileContent))
    (key : String × String) (v : FileContent) :
    lookupFile (setFile files key v) key = some v := by
  induction files with
  | nil => simp [setFile, lookupFile]
  | cons e rest ih =>
    obtain ⟨k, v'⟩ := e
    by_cases hk : k = key
    · simp [setFile, hk, lookupFile]
    · simp [setFile, hk, lookupFile, ih]

theorem lookupFile_setFile_other (files : List ((String × String) × FileContent))
    (key key' : String × String) (v : FileContent) (h : key' ≠ key) :
    lookupFile (setFile files key v) key' = lookupFile files key' := by
  induction files with
  | nil => simp [setFile, lookupFile, Ne.symm h]
  | cons e rest ih =>
    obtain ⟨k, v'⟩ := e
    by_cases hk : k = key
    · subst hk
      simp [setFile, lookupFile, Ne.symm h, h]
    · by_cases hk2 : k = key' <;>
        simp [setFile, hk, lookupFile, hk2, ih, h, Ne.symm h]

/-- `fsSave` really persists: a successful save makes the record
loadable. -/
theorem fsLoad_fsSave (fs fs2 : FS) (collection id : String) (data : SessionKeyData)
    (h : fsSave fs collection id data = .ok fs2) :
    fsLoad fs2 collection id = .ok (some data) := by
  unfold fsSave at h
  by_cases hc : ((collection, id) ∈ fs.failing ∨ jsonSerializable data = false)
  · simp [hc] at h
  · simp [hc] at h
    subst h
    simp [fsLoad, lookupFile_setFile_self]

/-- The record at `key` (if readable) is marked revoked. -/
def recordRevoked (fs : FS) (key : String × String) : Prop :=
  ∀ s, lookupFile fs.files key = some (.good s) → s.info.isRevoked = true

/-- The in-place mutation `revokeSession` performs on a loaded record. -/
def revokedData (s : SessionKeyData) : SessionKeyData :=
  { s with info := { s.info with isRevoked := true, isActive := false } }

/-- The store after overwriting `key` with record `d`. -/
def fsAfterSet (fs : FS) (key : String × String) (d : SessionKeyData) : FS :=
  { fs with files := setFile fs.files key (.good d) }

/-- Overwriting any record with a revoked copy preserves "revoked stays
revoked" everywhere. -/
theorem recordRevoked_after_revoke (fs : FS) (target : String × String)
    (s : SessionKeyData) (key : String × String) (h : recordRevoked fs key) :
    recordRevoked (fsAfterSet fs target (revokedData s)) key := by
  intro s2 hlook
  simp only [fsAfterSet] at hlook
  by_cases hkey : key = target
  · subst hkey
    rw [lookupFile_setFile_self] at hlook
    injection hlook with hlook
    injection hlook with hlook
    subst hlook
    rfl
  · rw [lookupFile_setFile_other _ _ _ _ hkey] at hlook
    exact h s2 hlook

/-- Writing at a different path preserves "revoked stays revoked". -/
theorem recordRevoked_after_fresh_set (fs : FS) (target : String × String)
    (d : SessionKeyData) (key : String × String)
    (h : recordRevoked fs key) (hne : target ≠ key) :
    recordRevoked (fsAfterSet fs target d) key := by
  intro s2 hlook
  simp only [fsAfterSet] at hlook
  rw [lookupFile_setFile_other _ _ _ _ (Ne.symm hne)] at hlook
  exact h s2 hlook

/-- C4: `revokeSession` fails with the not-found `SessionKeyError` when
the session is absent; otherwise (with the re-save not throwing: path not
failing, record serializable) it flips `isRevoked` to `true` (and
`isActive` to `false`), persists the updated record and returns `true`;
re-invoking it on an already-revoked session is the same success path
(idempotent, no new error); and neither `revokeSession` nor a
`createSessionKey` whose fresh id does not collide with the record ever
turns a stored `isRevoked = true` back to `false` — revocation is
one-way.  (The remaining operations read the store without writing, so
they cannot touch the flag.) -/
theorem C4_revocation_terminal (fs : FS) (walletAddress sessionId : String) :
    (fsLoad fs (sessionCollection walletAddress) sessionId = .ok none →
      revokeSession fs walletAddress sessionId =
        .error (SessionKeyError ("Session key not found: " ++ sessionId))) ∧
    (∀ s, fsLoad fs (sessionCollection walletAddress) sessionId = .ok (some s) →
      (sessionCollection walletAddress, sessionId) ∉ fs.failing →
      permsSerializable s.info.permissions = true →
      revokeSession fs walletAddress sessionId =
        .ok (true, fsAfterSet fs (sessionCollection walletAddress, sessionId) (revokedData s)) ∧
      fsLoad (fsAfterSet fs (sessionCollection walletAddress, sessionId) (revokedData s))
          (sessionCollection walletAddress) sessionId =
        .ok (some (revokedData s))) ∧
    (∀ s, fsLoad fs (sessionCollection walletAddress) sessionId = .ok (some s) →
      s.info.isRevoked = true →
      (sessionCollection walletAddress, sessionId) ∉ fs.failing →
      permsSerializable s.info.permissions = true →
      (revokeSession fs walletAddress sessionId).map Prod.fst = .ok true) ∧
    (∀ key, recordRevoked fs key →
      ∀ b fs2, revokeSession fs walletAddress sessionId = .ok (b, fs2) →
        recordRevoked fs2 key) ∧
    (∀ key (g : AesGcm) (scrypt : Scrypt) (config : SessionKeyConfig)
        (password sessionPrivateKey : List Char) (sessionKeyAddress newId : String)
        (salt iv : List Nat) (now : Int),
      recordRevoked fs key →
      (sessionCollection walletAddress, newId) ≠ key →
      ∀ d fs2, createSessionKey g scrypt fs walletAddress config password
          sessionPrivateKey sessionKeyAddress newId salt iv now = .ok (d, fs2) →
        recordRevoked fs2 key) := by
  refine ⟨?_, ?_, ?_, ?_, ?_⟩
  · intro h
    simp [revokeSession, h]
  · intro s h hnf hser
    constructor
    · simp [revokeSession, h, fsSave, hnf, jsonSerializable, hser, fsAfterSet, revokedData]
    · simp [fsLoad, fsAfterSet, lookupFile_setFile_self]
  · intro s h hrev hnf hser
    simp [revokeSession, h, fsSave, hnf, jsonSerializable, hser, Except.map]
  · intro key hRR b fs2 h
    unfold revokeSession at h
    cases hload : fsLoad fs (sessionCollection walletAddress) sessionId with
    | error e => rw [hload] at h; exact absurd h (by simp)
    | ok s? =>
      rw [hload] at h
      cases s? with
      | none => exact absurd h (by simp)
      | some s =>
        unfold fsSave at h
        by_cases hf : (sessionCollection walletAddress, sessionId) ∈ fs.failing
        · simp [hf] at h
        · by_cases hser : permsSerializable s.info.permissions = true
          · simp [hf, jsonSerializable, hser] at h
            obtain ⟨hb, hfs2⟩ := h
            subst hfs2
            exact recordRevoked_after_revoke fs _ s key hRR
          · rw [Bool.not_eq_true] at hser
            simp [hf, jsonSerializable, hser] at h
  · intro key g scrypt config password sessionPrivateKey sessionKeyAddress newId salt iv now
      hRR hfresh d fs2 h
    simp only [createSessionKey] at h
    cases hv : validateSessionTimes config.validAfter config.validUntil now with
    | error e => rw [hv] at h; exact absurd h (by simp)
    | ok u =>
      rw [hv] at h
      by_cases hl : (config.label = "" ∨ (trimStr config.label).length = 0)
      · rw [if_pos hl] at h
        exact absurd h (by simp)
      · rw [if_neg hl] at h
        cases he : encryptKey g scrypt salt iv sessionPrivateKey password with
        | error e => rw [he] at h; exact absurd h (by simp)
        | ok epk =>
          rw [he] at h
          unfold fsSave at h
          by_cases hf : (sessionCollection walletAddress, newId) ∈ fs.failing
          · simp [hf] at h
          · by_cases hser : permsSerializable config.permissions = true
            · simp [hf, jsonSerializable, hser] at h
              obtain ⟨hd, hfs2⟩ := h
              subst hfs2
              exact recordRevoked_after_fresh_set fs _ _ key hRR hfresh
            · rw [Bool.not_eq_true] at hser
              simp [hf, jsonSerializable, hser] at h

def dataLiveRevoked : SessionKeyData :=
  { dataLive with info := { dataLive.info with isRevoked := true, isActive := false } }

def dataRevokedUpd : SessionKeyData :=
  { dataRevoked with info := { dataRevoked.info with isRevoked := true, isActive := false } }

def fsRevoked2 : FS :=
  { fsRevoked with
    files := setFile fsRevoked.files ("sessions/0xabc", "s1") (.good dataRevokedUpd) }

def cfgGood : SessionKeyConfig := ⟨"bot", 0, 1000, noPerms⟩

/-- The session record `createSessionKey gXor scrypt0 · "0xabc" cfgGood
pw0 hexSecret0 "0xsess" "s2" salt0 iv0 100` builds. -/
def dataNew : SessionKeyData :=
  ⟨⟨"s2", "0xsess", "bot", 0, 1000, noPerms, true, false, 100⟩, ed0⟩

def fsRevokedPlus : FS :=
  { fsRevoked with
    files := setFile fsRevoked.files ("sessions/0xabc", "s2") (.good dataNew) }

theorem fsRevoked_recordRevoked : recordRevoked fsRevoked ("sessions/0xabc", "s1") := by
  intro s h
  simp [fsRevoked, lookupFile] at h
  subst h
  rfl

theorem C4_revocation_terminal_witness :
    revokeSession fsEmpty "0xabc" "s1" =
      .error (SessionKeyError ("Session key not found: " ++ "s1")) ∧
    revokeSession fsLive "0xabc" "s1" =
      .ok (true, fsAfterSet fsLive (sessionCollection "0xabc", "s1") (revokedData dataLive)) ∧
    (revokeSession fsRevoked "0xabc" "s1").map Prod.fst = .ok true ∧
    dataRevokedUpd.info.isRevoked = true ∧
    dataRevoked.info.isRevoked = true := by
  refine ⟨?_, ?_, ?_, ?_, ?_⟩
  · exact (C4_revocation_terminal fsEmpty "0xabc" "s1").1 (by decide)
  · exact ((C4_revocation_terminal fsLive "0xabc" "s1").2.1 dataLive
      (by decide) (by decide) (by decide)).1
  · exact (C4_revocation_terminal fsRevoked "0xabc" "s1").2.2.1 dataRevoked
      (by decide) (by decide) (by decide) (by decide)
  · exact (C4_revocation_terminal fsRevoked "0xabc" "s1").2.2.2.1
      ("sessions/0xabc", "s1") fsRevoked_recordRevoked true fsRevoked2
      (by decide) dataRevokedUpd (by decide)
  · exact (C4_revocation_terminal fsRevoked "0xabc" "s1").2.2.2.2
      ("sessions/0xabc", "s1") gXor scrypt0 cfgGood pw0 hexSecret0 "0xsess" "s2"
      salt0 iv0 100 fsRevoked_recordRevoked (by decide) dataNew fsRevokedPlus
      (by decide) dataRevoked (by decide)

/-! ## C6 -/

/-- C6: `createSessionKey` rejects an invalid time window
(`validUntil <= validAfter`, then `validUntil <= now`) and an empty or
whitespace-only label, in that order, each before any key generation,
cryptography or I/O — the error is the same whatever crypto primitives,
storage state, generated key or entropy are supplied; with those checks
passed (and the password strong enough for the Cipher, the save not
throwing — path not failing and the schema free of bigint caps that
`JSON.stringify` cannot serialize), it creates the session and persists
it under the wallet's collection. -/
theorem C6_create_validates_first (g : AesGcm) (scrypt : Scrypt) (fs : FS)
    (walletAddress : String) (config : SessionKeyConfig) (password : List Char)
    (sessionPrivateKey : List Char) (sessionKeyAddress sessionId : String)
    (salt iv : List Nat) (now : Int) :
    (config.validUntil ≤ config.validAfter →
      ∀ (g' : AesGcm) (scrypt' : Scrypt) (fs' : FS) (sessionPrivateKey' : List Char)
        (salt' iv' : List Nat),
        createSessionKey g' scrypt' fs' walletAddress config password
            sessionPrivateKey' sessionKeyAddress sessionId salt' iv' now =
          .error ⟨"Session validUntil must be after validAfter.", "INVALID_SESSION_TIMES"⟩) ∧
    (config.validAfter < config.validUntil → config.validUntil ≤ now →
      ∀ (g' : AesGcm) (scrypt' : Scrypt) (fs' : FS) (sessionPrivateKey' : List Char)
        (salt' iv' : List Nat),
        createSessionKey g' scrypt' fs' walletAddress config password
            sessionPrivateKey' sessionKeyAddress sessionId salt' iv' now =
          .error ⟨"Session validUntil must be in the future.", "INVALID_SESSION_TIMES"⟩) ∧
    (config.validAfter < config.validUntil → now < config.validUntil →
      (config.label = "" ∨ (trimStr config.label).length = 0) →
      ∀ (g' : AesGcm) (scrypt' : Scrypt) (fs' : FS) (sessionPrivateKey' : List Char)
        (salt' iv' : List Nat),
        createSessionKey g' scrypt' fs' walletAddress config password
            sessionPrivateKey' sessionKeyAddress sessionId salt' iv' now =
          .error (SessionKeyError "Session key label is required")) ∧
    (config.validAfter < config.validUntil → now < config.validUntil →
      ¬(config.label = "" ∨ (trimStr config.label).length = 0) →
      8 ≤ password.length →
      (sessionCollection walletAddress, sessionId) ∉ fs.failing →
      permsSerializable config.permissions = true →
      exceptOk (createSessionKey g scrypt fs walletAddress config password
          sessionPrivateKey sessionKeyAddress sessionId salt iv now) = true ∧
      ∀ d fs2, createSessionKey g scrypt fs walletAddress config password
          sessionPrivateKey sessionKeyAddress sessionId salt iv now = .ok (d, fs2) →
        fsLoad fs2 (sessionCollection walletAddress) sessionId = .ok (some d)) := by
  refine ⟨?_, ?_, ?_, ?_⟩
  · intro h g' scrypt' fs' spk' salt' iv'
    simp [createSessionKey, validateSessionTimes, h]
  · intro h1 h2 g' scrypt' fs' spk' salt' iv'
    have h1n : ¬ config.validUntil ≤ config.validAfter := by omega
    simp [createSessionKey, validateSessionTimes, h1n, h2]
  · intro h1 h2 hl g' scrypt' fs' spk' salt' iv'
    have h1n : ¬ config.validUntil ≤ config.validAfter := by omega
    have h2n : ¬ config.validUntil ≤ now := by omega
    simp [createSessionKey, validateSessionTimes, h1n, h2n, hl]
  · intro h1 h2 hl hpw hnf hser
    have h1n : ¬ config.validUntil ≤ config.validAfter := by omega
    have h2n : ¬ config.validUntil ≤ now := by omega
    have hpw8 : ¬ password.length < 8 := by omega
    constructor
    · simp [createSessionKey, validateSessionTimes, h1n, h2n, hl, encryptKey, hpw8,
        fsSave, hnf, jsonSerializable, hser, exceptOk]
    · intro d fs2 hok
      simp [createSessionKey, validateSessionTimes, h1n, h2n, hl, encryptKey, hpw8,
        fsSave, hnf, jsonSerializable, hser] at hok
      obtain ⟨hd, hfs2⟩ := hok
      subst hd
      subst hfs2
      simp [fsLoad, lookupFile_setFile_self]

def cfgBadTimes : SessionKeyConfig := ⟨"bot", 1000, 50, noPerms⟩

def cfgPast : SessionKeyConfig := ⟨"bot", 0, 50, noPerms⟩

def cfgWs : SessionKeyConfig := ⟨" ", 0, 1000, noPerms⟩

/-- The record and store `createSessionKey gXor scrypt0 fsEmpty "0xabc"
cfgGood pw0 hexSecret0 "0xsess" "s1" salt0 iv0 100` produces. -/
def dataGood : SessionKeyData :=
  ⟨⟨"s1", "0xsess", "bot", 0, 1000, noPerms, true, false, 100⟩, ed0⟩

def fsGood : FS := fsAfterSet fsEmpty ("sessions/0xabc", "s1") dataGood

theorem C6_create_validates_first_witness :
    createSessionKey gXor scrypt0 fsEmpty "0xabc" cfgBadTimes pw0 hexSecret0
        "0xsess" "s1" salt0 iv0 100 =
      .error ⟨"Session validUntil must be after validAfter.", "INVALID_SESSION_TIMES"⟩ ∧
    createSessionKey gXor scrypt0 fsEmpty "0xabc" cfgPast pw0 hexSecret0
        "0xsess" "s1" salt0 iv0 100 =
      .error ⟨"Session validUntil must be in the future.", "INVALID_SESSION_TIMES"⟩ ∧
    createSessionKey gXor scrypt0 fsEmpty "0xabc" cfgWs pw0 hexSecret0
        "0xsess" "s1" salt0 iv0 100 =
      .error (SessionKeyError "Session key label is required") ∧
    exceptOk (createSessionKey gXor scrypt0 fsEmpty "0xabc" cfgGood pw0 hexSecret0
        "0xsess" "s1" salt0 iv0 100) = true ∧
    fsLoad fsGood (sessionCollection "0xabc") "s1" = .ok (some dataGood) := by
  refine ⟨?_, ?_, ?_, ?_, ?_⟩
  · exact (C6_create_validates_first gXor scrypt0 fsEmpty "0xabc" cfgBadTimes pw0
      hexSecret0 "0xsess" "s1" salt0 iv0 100).1 (by decide) gXor scrypt0 fsEmpty
      hexSecret0 salt0 iv0
  · exact (C6_create_validates_first gXor scrypt0 fsEmpty "0xabc" cfgPast pw0
      hexSecret0 "0xsess" "s1" salt0 iv0 100).2.1 (by decide) (by decide) gXor scrypt0
      fsEmpty hexSecret0 salt0 iv0
  · exact (C6_create_validates_first gXor scrypt0 fsEmpty "0xabc" cfgWs pw0
      hexSecret0 "0xsess" "s1" salt0 iv0 100).2.2.1 (by decide) (by decide) (by decide)
      gXor scrypt0 fsEmpty hexSecret0 salt0 iv0
  · exact ((C6_create_validates_first gXor scrypt0 fsEmpty "0xabc" cfgGood pw0
      hexSecret0 "0xsess" "s1" salt0 iv0 100).2.2.2 (by decide) (by decide) (by decide)
      (by decide) (by decide) (by decide)).1
  · exact ((C6_create_validates_first gXor scrypt0 fsEmpty "0xabc" cfgGood pw0
      hexSecret0 "0xsess" "s1" salt0 iv0 100).2.2.2 (by decide) (by decide) (by decide)
      (by decide) (by decide) (by decide)).2 dataGood fsGood (by decide)

/-! ## C8 -/

theorem lookupFile_removeFile (files : List ((String × String) × FileContent))
    (key : String × String) :
    lookupFile (removeFile files key) key = none := by
  induction files with
  | nil => rfl
  | cons e rest ih =>
    obtain ⟨k, v⟩ := e
    by_cases hk : k = key
    · simpa [removeFile, List.filter, hk] using ih
    · simpa [removeFile, List.filter, hk, lookupFile] using ih

/-- C8 counterexample: with the record present but `unlinkSync` failing,
`delete` returns plain `false` and leaves the store untouched — the I/O
failure is silently swallowed, indistinguishable from "nothing to
delete", instead of surfacing as an error. -/
def fsFailDel : FS := ⟨[(("c", "x"), .good dataLive)], [("c", "x")]⟩

theorem C8_cex_delete_swallows_io_failure :
    (lookupFile fsFailDel.files ("c", "x")).isSome = true ∧
    ("c", "x") ∈ fsFailDel.failing ∧
    fsDelete fsFailDel "c" "x" = (false, fsFailDel) := by
  decide

/-- C8 (amended): `delete` returns `true` exactly when the record existed
and the unlink went through (and the record is then gone), `false` when
the record was absent — but also `false`, with no error, when the unlink
itself failed; `save` and `load` I/O failures are surfaced as
`KeyManagementError` (the SDK's key-management error class, not a
distinct StorageError). -/
theorem C8_remove_and_storage_errors (fs : FS) (collection id : String)
    (data : SessionKeyData) :
    ((fsDelete fs collection id).1 = true ↔
      ((lookupFile fs.files (collection, id)).isSome = true ∧
        (collection, id) ∉ fs.failing)) ∧
    (lookupFile fs.files (collection, id) = none →
      fsDelete fs collection id = (false, fs)) ∧
    ((fsDelete fs collection id).1 = true →
      lookupFile (fsDelete fs collection id).2.files (collection, id) = none) ∧
    ((collection, id) ∈ fs.failing →
      fsSave fs collection id data =
        .error (KeyManagementError ("Failed to save " ++ collection ++ "/" ++ id))) ∧
    (lookupFile fs.files (collection, id) = some .corrupt →
      fsLoad fs collection id =
        .error (KeyManagementError ("Failed to load " ++ collection ++ "/" ++ id))) ∧
    ((lookupFile fs.files (collection, id)).isSome = true →
      (collection, id) ∈ fs.failing →
      fsDelete fs collection id = (false, fs)) := by
  refine ⟨?_, ?_, ?_, ?_, ?_, ?_⟩
  · cases hl : lookupFile fs.files (collection, id) with
    | none => simp [fsDelete, hl]
    | some c =>
      by_cases hf : (collection, id) ∈ fs.failing <;> simp [fsDelete, hl, hf]
  · intro hl
    simp [fsDelete, hl]
  · intro htrue
    cases hl : lookupFile fs.files (collection, id) with
    | none => simp [fsDelete, hl] at htrue
    | some c =>
      by_cases hf : (collection, id) ∈ fs.failing
      · simp [fsDelete, hl, hf] at htrue
      · simp [fsDelete, hl, hf, lookupFile_removeFile]
  · intro hf
    simp [fsSave, hf]
  · intro hl
    simp [fsLoad, hl]
  · intro hsome hf
    cases hl : lookupFile fs.files (collection, id) with
    | none => simp [hl] at hsome
    | some c => simp [fsDelete, hl, hf]

theorem C8_remove_and_storage_errors_witness :
    ((fsDelete fsLive "sessions/0xabc" "s1").1 = true ↔
      ((lookupFile fsLive.files ("sessions/0xabc", "s1")).isSome = true ∧
        ("sessions/0xabc", "s1") ∉ fsLive.failing)) ∧
    fsDelete fsEmpty "sessions/0xabc" "s1" = (false, fsEmpty) ∧
    lookupFile (fsDelete fsLive "sessions/0xabc" "s1").2.files
      ("sessions/0xabc", "s1") = none ∧
    fsSave fsFailDel "c" "x" dataLive =
      .error (KeyManagementError ("Failed to save " ++ "c" ++ "/" ++ "x")) ∧
    fsDelete fsFailDel "c" "x" = (false, fsFailDel) :=
  ⟨(C8_remove_and_storage_errors fsLive "sessions/0xabc" "s1" dataLive).1,
   (C8_remove_and_storage_errors fsEmpty "sessions/0xabc" "s1" dataLive).2.1 (by decide),
   (C8_remove_and_storage_errors fsLive "sessions/0xabc" "s1" dataLive).2.2.1 (by decide),
   (C8_remove_and_storage_errors fsFailDel "c" "x" dataLive).2.2.2.1 (by decide),
   (C8_remove_and_storage_errors fsFailDel "c" "x" dataLive).2.2.2.2.2
     (by decide) (by decide)⟩


/-! ## C9 -/

/-- Shape-violating but JSON-serializable: a non-address allowlist entry
and a negative operation-count cap (`maxTransactions` is a JS `number`,
which `JSON.stringify` handles fine). -/
def badAddrPerms : SessionKeyPermissions :=
  ⟨some ["not-an-address"], none, none, none, some (-3)⟩

def badAddrConfig : SessionKeyConfig := ⟨"bot", 0, 1000, badAddrPerms⟩

/-- A negative per-call value cap: a `bigint` in the source. -/
def negCapPerms : SessionKeyPermissions := ⟨none, none, some ⟨-5⟩, none, none⟩

def negCapConfig : SessionKeyConfig := ⟨"bot", 0, 1000, negCapPerms⟩

/-- A perfectly well-shaped, non-negative `bigint` value cap. -/
def posCapPerms : SessionKeyPermissions := ⟨none, none, some ⟨5⟩, none, none⟩

def posCapConfig : SessionKeyConfig := ⟨"bot", 0, 1000, posCapPerms⟩

/-- C9 counterexample: no shape validation exists.  A config whose
allowlist entry is not address-shaped and whose operation-count cap is
negative sails through and is persisted verbatim; a negative bigint
value cap is not rejected by any shape check either — the call only dies
at save time, where `JSON.stringify` throws on the bigint, surfacing the
generic storage `KeyManagementError` after key generation and
encryption; and a well-shaped non-negative bigint cap fails with exactly
the same error, so the failure distinguishes nothing about shape. -/
theorem C9_cex_shape_not_validated :
    (createSessionKey gXor scrypt0 fsEmpty "0xabc" badAddrConfig pw0 hexSecret0
        "0xsess" "s1" salt0 iv0 100).map (fun r => r.1.info.permissions) =
      .ok badAddrPerms ∧
    badAddrPerms.allowedTargets = some ["not-an-address"] ∧
    badAddrPerms.maxTransactions = some (-3) ∧
    createSessionKey gXor scrypt0 fsEmpty "0xabc" negCapConfig pw0 hexSecret0
        "0xsess" "s1" salt0 iv0 100 =
      .error (KeyManagementError ("Failed to save " ++ "sessions/0xabc" ++ "/" ++ "s1")) ∧
    createSessionKey gXor scrypt0 fsEmpty "0xabc" posCapConfig pw0 hexSecret0
        "0xsess" "s1" salt0 iv0 100 =
      .error (KeyManagementError ("Failed to save " ++ "sessions/0xabc" ++ "/" ++ "s1")) := by
  decide

/-- C9 (amended): `createSessionKey` performs no shape validation of the
permission schema.  Whenever it succeeds it returns and persists
`config.permissions` verbatim, non-address allowlist entries and negative
number caps included; a `bigint` value cap — negative or non-negative
alike — is never persisted, but not because of validation: the otherwise
valid call fails only at save time with the storage `KeyManagementError`
(after key generation and encryption, `JSON.stringify` throwing on the
bigint); and among schemas with equal bigint-presence, success or failure
never depends on the permissions — shape is never inspected. -/
theorem C9_permissions_passthrough_no_shape_check (g : AesGcm) (scrypt : Scrypt) (fs : FS)
    (walletAddress : String) (config : SessionKeyConfig) (password : List Char)
    (sessionPrivateKey : List Char) (sessionKeyAddress sessionId : String)
    (salt iv : List Nat) (now : Int) :
    (∀ d fs2, createSessionKey g scrypt fs walletAddress config password
        sessionPrivateKey sessionKeyAddress sessionId salt iv now = .ok (d, fs2) →
      d.info.permissions = config.permissions ∧
      fsLoad fs2 (sessionCollection walletAddress) sessionId = .ok (some d)) ∧
    (config.validAfter < config.validUntil → now < config.validUntil →
      ¬(config.label = "" ∨ (trimStr config.label).length = 0) →
      8 ≤ password.length →
      permsSerializable config.permissions = false →
      createSessionKey g scrypt fs walletAddress config password
          sessionPrivateKey sessionKeyAddress sessionId salt iv now =
        .error (KeyManagementError
          ("Failed to save " ++ sessionCollection walletAddress ++ "/" ++ sessionId))) ∧
    (∀ config' : SessionKeyConfig, config'.label = config.label →
      config'.validAfter = config.validAfter → config'.validUntil = config.validUntil →
      permsSerializable config'.permissions = permsSerializable config.permissions →
      exceptOk (createSessionKey g scrypt fs walletAddress config' password
          sessionPrivateKey sessionKeyAddress sessionId salt iv now) =
      exceptOk (createSessionKey g scrypt fs walletAddress config password
          sessionPrivateKey sessionKeyAddress sessionId salt iv now)) := by
  refine ⟨?_, ?_, ?_⟩
  · intro d fs2 h
    simp only [createSessionKey] at h
    cases hv : validateSessionTimes config.validAfter config.validUntil now with
    | error e => rw [hv] at h; exact absurd h (by simp)
    | ok u =>
      rw [hv] at h
      by_cases hl : (config.label = "" ∨ (trimStr config.label).length = 0)
      · rw [if_pos hl] at h
        exact absurd h (by simp)
      · rw [if_neg hl] at h
        cases he : encryptKey g scrypt salt iv sessionPrivateKey password with
        | error e => rw [he] at h; exact absurd h (by simp)
        | ok epk =>
          rw [he] at h
          unfold fsSave at h
          by_cases hf : (sessionCollection walletAddress, sessionId) ∈ fs.failing
          · simp [hf] at h
          · by_cases hser : permsSerializable config.permissions = true
            · simp [hf, jsonSerializable, hser] at h
              obtain ⟨hd, hfs2⟩ := h
              subst hd
              subst hfs2
              exact ⟨rfl, by simp [fsLoad, lookupFile_setFile_self]⟩
            · rw [Bool.not_eq_true] at hser
              simp [hf, jsonSerializable, hser] at h
  · intro h1 h2 hl hpw hser
    have h1n : ¬ config.validUntil ≤ config.validAfter := by omega
    have h2n : ¬ config.validUntil ≤ now := by omega
    have hpw8 : ¬ password.length < 8 := by omega
    simp [createSessionKey, validateSessionTimes, h1n, h2n, hl, encryptKey, hpw8,
      fsSave, jsonSerializable, hser]
  · intro config' hla hva hvu hps
    unfold createSessionKey
    rw [hla, hva, hvu]
    cases hv : validateSessionTimes config.validAfter config.validUntil now with
    | error e => simp [hv, exceptOk]
    | ok u =>
      by_cases hl : (config.label = "" ∨ (trimStr config.label).length = 0)
      · simp [hv, hl, exceptOk]
      · cases he : encryptKey g scrypt salt iv sessionPrivateKey password with
        | error e => simp [hv, hl, he, exceptOk]
        | ok epk =>
          unfold fsSave
          by_cases hf : (sessionCollection walletAddress, sessionId) ∈ fs.failing
          · simp [hv, hl, he, hf, exceptOk]
          · by_cases hser : permsSerializable config.permissions = true
            · simp [hv, hl, he, hf, exceptOk, jsonSerializable, hps, hser]
            · rw [Bool.not_eq_true] at hser
              simp [hv, hl, he, hf, exceptOk, jsonSerializable, hps, hser]

theorem C9_permissions_passthrough_no_shape_check_witness :
    (dataGood.info.permissions = cfgGood.permissions ∧
      fsLoad fsGood (sessionCollection "0xabc") "s1" = .ok (some dataGood)) ∧
    createSessionKey gXor scrypt0 fsEmpty "0xabc" negCapConfig pw0 hexSecret0
        "0xsess" "s1" salt0 iv0 100 =
      .error (KeyManagementError
        ("Failed to save " ++ sessionCollection "0xabc" ++ "/" ++ "s1")) ∧
    exceptOk (createSessionKey gXor scrypt0 fsEmpty "0xabc" badAddrConfig pw0 hexSecret0
        "0xsess" "s1" salt0 iv0 100) =
      exceptOk (createSessionKey gXor scrypt0 fsEmpty "0xabc" cfgGood pw0 hexSecret0
        "0xsess" "s1" salt0 iv0 100) :=
  ⟨(C9_permissions_passthrough_no_shape_check gXor scrypt0 fsEmpty "0xabc" cfgGood pw0
      hexSecret0 "0xsess" "s1" salt0 iv0 100).1 dataGood fsGood (by decide),
   (C9_permissions_passthrough_no_shape_check gXor scrypt0 fsEmpty "0xabc" negCapConfig
      pw0 hexSecret0 "0xsess" "s1" salt0 iv0 100).2.1 (by decide) (by decide)
      (by decide) (by decide) (by decide),
   (C9_permissions_passthrough_no_shape_check gXor scrypt0 fsEmpty "0xabc" cfgGood pw0
      hexSecret0 "0xsess" "s1" salt0 iv0 100).2.2 badAddrConfig rfl rfl rfl (by decide)⟩

end ArbWallet
